import Mathlib

/-
Shallow embedding of the GoogleDrive class in src/drive.ts.

The class holds two pieces of mutable state: `options` (the credentials,
including the cached access token and its expiry) and `pathCache` (a mapping
from normalized path strings to remote-object metadata).  Network effects are
modelled by passing the remote side in explicitly: a `Server` function for
metadata queries, a scripted `TokenResp` for the token endpoint, a list of
`ApiResp` for successive answers of the listing endpoint to one repeated
request, and a list of pages for pagination.  Every operation additionally
returns the number of network calls it performed.

JavaScript specifics that matter and are modelled faithfully:
  * `pathCache[k] = result.files[0]` stores `undefined` when the result is
    empty; the key then exists on the object, but the truthiness tests
    `!this.pathCache[k]` cannot tell this entry from an absent one.  The
    cache is therefore an association list whose values are
    `Option RemoteObject`: an entry `(k, none)` is a present key holding
    `undefined`, and `cacheGet` (the truthiness view) yields `none` both for
    that entry and for a missing key.
  * `options.expires_on && options.expires_on > Date.now()` is falsy when
    `expires_on` is undefined or 0; `tokenValid` mirrors this.
  * `decodeURIComponent` is modelled for single-byte escapes (`%XY` with two
    hex digits); the original throws URIError on malformed input, the model
    leaves malformed sequences unchanged (no claim depends on them).
-/

/-- MIME type denoting a folder (constant FOLDER_TYPE in src/drive.ts). -/
def FOLDER_TYPE : String := "application/vnd.google-apps.folder"

/-- Prefix of the error message that triggers the unconditional retry in
`request` (src/drive.ts line 223). -/
def rateLimitMarker : String := "User Rate Limit Exceeded"

/-- Reserved filename excluded from listings (src/drive.ts line 182). -/
def reservedName : String := ".password"

/-- The single-quote character, written via its code point. -/
def squote : Char := Char.ofNat 39

/-- The backslash character, written via its code point. -/
def bslash : Char := Char.ofNat 92

/-- Helper for `collapse`: the Boolean records whether the previous kept
character was a slash, so that runs of slashes emit a single one. -/
def collapseAux : Bool → List Char → List Char
  | _, [] => []
  | prevSlash, ch :: rest =>
    if ch = '/' then
      if prevSlash then collapseAux true rest
      else '/' :: collapseAux true rest
    else ch :: collapseAux false rest

/-- Replace every run of consecutive slashes by a single slash: the
`.replace(/\/+/g, "/")` of `join` in src/drive.ts (lines 250-252). -/
def collapse (l : List Char) : List Char := collapseAux false l

/-- `this.join("/", path, "/")` of src/drive.ts line 113: concatenate a
leading slash, the path and a trailing slash, then collapse runs of
slashes.  This is the cache key used by `getMetadata`. -/
def normKey (path : String) : String :=
  String.mk (collapse ('/' :: path.data ++ ['/']))

/-- `this.trim(string, "/")` of src/drive.ts (lines 260-264): remove the
slashes at both ends of the string. -/
def trimSlashes (l : List Char) : List Char :=
  ((l.dropWhile (fun ch => ch = '/')).reverse.dropWhile (fun ch => ch = '/')).reverse

/-- JavaScript `string.split("/")` on a character list (yields `[[]]` on the
empty string, like the original). -/
def splitSeg : List Char → List (List Char)
  | [] => [[]]
  | ch :: rest =>
    match splitSeg rest with
    | [] => [[]]
    | s :: ss => if ch = '/' then [] :: s :: ss else (ch :: s) :: ss

/-- `this.trim(path, "/").split("/")` of src/drive.ts line 118, applied to
the normalized key. -/
def splitSegs (key : String) : List String :=
  (splitSeg (trimSlashes key.data)).map String.mk

/-- Value of a hexadecimal digit, if the character is one. -/
def hexVal (ch : Char) : Option Nat :=
  if 48 ≤ ch.toNat ∧ ch.toNat ≤ 57 then some (ch.toNat - 48)
  else if 65 ≤ ch.toNat ∧ ch.toNat ≤ 70 then some (ch.toNat - 55)
  else if 97 ≤ ch.toNat ∧ ch.toNat ≤ 102 then some (ch.toNat - 87)
  else none

/-- `decodeURIComponent` restricted to single-byte percent escapes:
`%XY` with two hex digits becomes the character with code `16*X + Y`;
anything else is kept unchanged (the original throws on malformed input,
which no claim exercises). -/
def percentDecode : List Char → List Char
  | [] => []
  | '%' :: a :: b :: rest =>
    match hexVal a, hexVal b with
    | some x, some y => Char.ofNat (16 * x + y) :: percentDecode rest
    | _, _ => '%' :: percentDecode (a :: b :: rest)
  | ch :: rest => ch :: percentDecode rest

/-- `.replace(/\'/g, "\\'")` of src/drive.ts line 126: put a backslash in
front of every single quote. -/
def escapeQuotes : List Char → List Char
  | [] => []
  | ch :: rest =>
    if ch = squote then bslash :: squote :: escapeQuotes rest
    else ch :: escapeQuotes rest

/-- The name actually interpolated into the query filter for a path segment:
`decodeURIComponent(name).replace(/\'/g, "\\'")` (src/drive.ts line 126). -/
def queryName (seg : String) : String :=
  String.mk (escapeQuotes (percentDecode seg.data))

/-- Remote object metadata.  Of the attributes requested in FILE_ATTRS only
`id`, `name` and `mimeType` flow into the logic being verified; `trashed` is
carried so that the modelled server can apply the `trashed = false` clause of
the query filters. -/
structure RemoteObject where
  id : String
  name : String
  mimeType : String
  trashed : Bool
deriving DecidableEq, Repr

/-- The ad-hoc error objects thrown as `{ status, message }`. -/
structure ErrObj where
  status : Nat
  message : String
deriving DecidableEq, Repr

/-- `this.pathCache`: a JavaScript object used as a map.  An entry whose
value is `none` models a key that was assigned `undefined` (the stored
`result.files[0]` of an empty query result): the key is present, but every
truthiness test on the looked-up value treats it like an absent key. -/
abbrev Cache := List (String × Option RemoteObject)

/-- The value the code observes at `pathCache[k]`: the stored value if the
key is present (which may itself be the `undefined` marker `none`), and
`undefined` (`none`) if the key is absent. -/
def cacheGet (c : Cache) (k : String) : Option RemoteObject :=
  match c.lookup k with
  | none => none
  | some v => v

/-- Whether the key itself is present on the cache object (JavaScript
`k in pathCache`), regardless of the stored value. -/
def cacheHasKey (c : Cache) (k : String) : Bool :=
  (c.lookup k).isSome

/-- `this.pathCache[k] = v` (later entries shadow earlier ones). -/
def cacheSet (c : Cache) (k : String) (v : Option RemoteObject) : Cache :=
  (k, v) :: c

/-- The remote metadata endpoint, abstracted over the filter construction:
given a parent id and the (decoded, quote-escaped) child name of the filter
`'<parentId>' in parents and name = <name> and trashed = false`, it returns
the `files` array of the response. -/
def Server : Type := String → String → List RemoteObject

/-- The sentinel object seeded for the root path at construction
(src/drive.ts line 35): only `id` and `mimeType` are populated there, so the
remaining fields are defaults. -/
def rootObj (rid : String) : RemoteObject :=
  { id := rid, name := "", mimeType := FOLDER_TYPE, trashed := false }

/-- `options.root_id = options.root_id || "root"` (src/drive.ts line 33):
an absent or empty root id falls back to "root". -/
def rootIdOf : Option String → String
  | none => "root"
  | some s => if s = "" then "root" else s

/-- The path cache as seeded by the constructor (src/drive.ts line 35). -/
def initCache (rid : String) : Cache :=
  [("/", some (rootObj rid))]

/-- The segment loop of `getMetadata` (src/drive.ts lines 120-139).
Arguments: current parent metadata (the JS `metadata`, truthy whenever the
loop body runs a query), remaining segments, accumulated `fullPath`, cache
and network-call count.  When the looked-up entry for the extended path is
falsy the code issues one query and stores `result.files[0]` — which is the
`undefined` marker if the result was empty — then re-reads the entry and
breaks out of the loop if it is falsy. -/
def walk (srv : Server) : RemoteObject → List String → String → Cache → Nat → Cache × Nat
  | _, [], _, c, n => (c, n)
  | m, name :: rest, fullPath, c, n =>
    let fp := fullPath ++ name ++ "/"
    match cacheGet c fp with
    | some m2 => walk srv m2 rest fp c n
    | none =>
      let c1 := cacheSet c fp (srv m.id (queryName name)).head?
      match cacheGet c1 fp with
      | none => (c1, n + 1)
      | some m2 => walk srv m2 rest fp c1 (n + 1)

/-- `getMetadata` (src/drive.ts lines 112-142).  Returns the resolved value
(`none` is the not-found outcome), the updated cache, and the number of
network calls.  The branch where the root entry is missing is unreachable in
any state descending from the constructor (the original code would crash
there dereferencing `metadata.id`). -/
def getMetadata (srv : Server) (c : Cache) (path : String) :
    Option RemoteObject × Cache × Nat :=
  let key := normKey path
  match cacheGet c key with
  | some m => (some m, c, 0)
  | none =>
    match cacheGet c "/" with
    | none => (none, c, 0)
    | some root =>
      let r := walk srv root (splitSegs key) "/" c 0
      (cacheGet r.1 key, r.1, r.2)

/-- The capability attached by `index`: a folder gets a `list()` closure over
the folder's id, a file gets a `raw(range)` closure over the file's id
(src/drive.ts lines 89-103), never both. -/
inductive Cap where
  | list (folderId : String)
  | raw (fileId : String)
deriving DecidableEq, Repr

/-- The value returned by `index`: a copy of the resolved metadata together
with the `isFolder` flag and the attached capability. -/
structure Indexed where
  obj : RemoteObject
  isFolder : Bool
  cap : Cap
deriving DecidableEq, Repr

/-- `index` (src/drive.ts lines 81-105): resolve the path, throw
`{status: 404, message: "Path not found"}` on a falsy result, otherwise
spread-copy the metadata, set `isFolder`, and attach `list()` or `raw()`. -/
def index (srv : Server) (c : Cache) (path : String) :
    Except ErrObj Indexed × Cache × Nat :=
  match getMetadata srv c path with
  | (none, c2, n) => (Except.error ⟨404, "Path not found"⟩, c2, n)
  | (some m, c2, n) =>
    (Except.ok
      { obj := m
        isFolder := m.mimeType == FOLDER_TYPE
        cap := if m.mimeType == FOLDER_TYPE then Cap.list m.id else Cap.raw m.id },
     c2, n)

/-- The credential state held in `this.options`; the static client id,
secret and refresh token do not flow into the verified logic. -/
structure Creds where
  expires_on : Option Int
  access_token : Option String
deriving DecidableEq, Repr

/-- One scripted response of the token endpoint. -/
inductive TokenResp where
  | ok (access_token : String) (expires_in : Int)
  | err (status : Nat) (error_description : String)
deriving DecidableEq, Repr

/-- `this.options.expires_on && this.options.expires_on > Date.now()`
(src/drive.ts line 44): falsy when the expiry is undefined or 0. -/
def tokenValid : Option Int → Int → Bool
  | some e, now => e != 0 && decide (now < e)
  | none, _ => false

/-- `authorize` (src/drive.ts lines 42-74), with `Date.now()` passed in as
`now` and the token endpoint's answer passed in as `resp`.  Returns the
outcome, the credential state afterwards, and the number of token exchanges
performed (0 or 1).  On success the new expiry is
`now + (expires_in - 300) * 1000`: five minutes less than the declared
lifetime, in milliseconds. -/
def authorize (c : Creds) (now : Int) (resp : TokenResp) :
    Except ErrObj Unit × Creds × Nat :=
  if tokenValid c.expires_on now then (Except.ok (), c, 0)
  else
    match resp with
    | TokenResp.err st d => (Except.error ⟨st, d⟩, c, 1)
    | TokenResp.ok tok lifetime =>
      (Except.ok (),
       { expires_on := some (now + (lifetime - 300) * 1000),
         access_token := some tok }, 1)

/-- JavaScript `msg.startsWith(marker)`: the marker's characters are a
prefix of the message's. -/
def strStartsWith (s p : String) : Bool := p.data.isPrefixOf s.data

/-- One scripted, already-decoded JSON answer of the listing endpoint. -/
inductive ApiResp (α : Type) where
  | ok (result : α)
  | err (status : Nat) (message : String)
deriving DecidableEq, Repr

/-- `request` (src/drive.ts lines 209-229) run against the successive
answers the endpoint gives to the one (identical, re-issued) request: a
rate-limited error consumes an answer and recurses, any other error is
thrown as `{status, message}`, a success is returned.  `none` means the
scripted answers ran out while still rate-limited — the original code would
keep retrying without bound. -/
def request {α : Type} : List (ApiResp α) → Option (Except ErrObj α)
  | [] => none
  | ApiResp.ok v :: _ => some (Except.ok v)
  | ApiResp.err st msg :: rest =>
    if strStartsWith msg rateLimitMarker then request rest
    else some (Except.error ⟨st, msg⟩)

/-- An answer that triggers the retry branch of `request`. -/
def isRateLimited {α : Type} : ApiResp α → Prop
  | ApiResp.ok _ => False
  | ApiResp.err _ msg => strStartsWith msg rateLimitMarker = true

/-- The `do/while` of `listFiles` (src/drive.ts lines 187-200).  The
continuation token is modelled as the list of pages still to come after the
current one: the server answers the current request with the head page (or
an empty `files` array when no page remains) and hands out a next-page token
exactly when the remainder is nonempty.  Each iteration is one network
call. -/
def listLoop : List (List RemoteObject) → List RemoteObject → Nat →
    List RemoteObject × Nat
  | [], acc, n => (acc, n + 1)
  | [p], acc, n => (acc ++ p, n + 1)
  | p :: q :: rest, acc, n => listLoop (q :: rest) (acc ++ p) (n + 1)

/-- `listFiles` (src/drive.ts lines 176-202): drain all pages into one
accumulator, starting with no continuation token; returns the accumulated
children and the number of page fetches. -/
def listFiles (pages : List (List RemoteObject)) : List RemoteObject × Nat :=
  listLoop pages [] 0

/-- The predicate the listing query filter
`'<id>' in parents and trashed = false AND name != '.password'` imposes on a
child object (src/drive.ts line 182); the modelled server honours it. -/
def matchesQuery (o : RemoteObject) : Bool :=
  !o.trashed && o.name != reservedName

/-- Split a child list into server pages of `P` objects each (the last page
possibly shorter).  Intended for `0 < P`; the code requests `pageSize: 1000`
but the property is proved for any positive page size. -/
def chunk (P : Nat) : List RemoteObject → List (List RemoteObject)
  | [] => []
  | x :: xs => (x :: xs.take (P - 1)) :: chunk P (xs.drop (P - 1))
termination_by l => l.length
decreasing_by
  simp only [List.length_drop, List.length_cons]
  omega

/-- `listFiles` in a form that threads the instance's path cache through,
mirroring that the method body (src/drive.ts lines 176-202) never reads or
writes `this.pathCache`: the cache comes back unchanged. -/
def listFilesSt (pages : List (List RemoteObject)) (c : Cache) :
    (List RemoteObject × Nat) × Cache :=
  (listFiles pages, c)

/-- A remote store with no children anywhere: every query returns `[]`. -/
def emptySrv : Server := fun _ _ => []

/-- A concrete child of the root, used in witnesses. -/
def objA : RemoteObject :=
  { id := "idA", name := "a", mimeType := "text/plain", trashed := false }

/-- A remote store in which the root ("root") has the single child `objA`
named "a". -/
def srvA : Server := fun pid name =>
  if pid == "root" && name == "a" then [objA] else []

theorem len_slash : ("/" : String).length = 1 := rfl

theorem cacheGet_cacheSet_self (c : Cache) (k : String) (v : Option RemoteObject) :
    cacheGet (cacheSet c k v) k = v := by
  simp [cacheGet, cacheSet, List.lookup]

theorem lookup_cacheSet_ne (c : Cache) (k k2 : String) (v : Option RemoteObject)
    (h : k2 ≠ k) : (cacheSet c k v).lookup k2 = c.lookup k2 := by
  simp [cacheSet, List.lookup, beq_eq_false_iff_ne.mpr h]

theorem ne_root_key (fullPath name : String) (h : 1 ≤ fullPath.length) :
    ("/" : String) ≠ fullPath ++ name ++ "/" := by
  intro hEq
  have hlen := congrArg String.length hEq
  rw [len_slash] at hlen
  simp only [String.length_append, len_slash] at hlen
  omega

theorem walk_lookup_root (srv : Server) (segs : List String) :
    ∀ (m : RemoteObject) (fullPath : String) (c : Cache) (n : Nat),
      1 ≤ fullPath.length →
      ((walk srv m segs fullPath c n).1).lookup "/" = c.lookup "/" := by
  induction segs with
  | nil => intro m fullPath c n _; rfl
  | cons name rest ih =>
    intro m fullPath c n h
    have hfp : 1 ≤ (fullPath ++ name ++ "/").length := by
      simp only [String.length_append, len_slash]
      omega
    have hne : ("/" : String) ≠ fullPath ++ name ++ "/" := ne_root_key fullPath name h
    simp only [walk]
    cases hv : cacheGet c (fullPath ++ name ++ "/") with
    | some m2 => exact ih m2 (fullPath ++ name ++ "/") c n hfp
    | none =>
      rw [cacheGet_cacheSet_self]
      cases hst : (srv m.id (queryName name)).head? with
      | none =>
        exact lookup_cacheSet_ne c (fullPath ++ name ++ "/") "/" none hne
      | some m2 =>
        exact (ih m2 (fullPath ++ name ++ "/") _ (n + 1) hfp).trans
          (lookup_cacheSet_ne c (fullPath ++ name ++ "/") "/" (some m2) hne)

theorem getMetadata_fst (srv : Server) (c : Cache) (path : String) :
    (getMetadata srv c path).1 = cacheGet (getMetadata srv c path).2.1 (normKey path) := by
  simp only [getMetadata]
  cases h1 : cacheGet c (normKey path) with
  | some m => simpa using h1.symm
  | none =>
    cases h2 : cacheGet c "/" with
    | none => simpa using h1.symm
    | some root => rfl

theorem getMetadata_hit (srv : Server) (c : Cache) (path : String) (v : RemoteObject)
    (h : cacheGet c (normKey path) = some v) :
    getMetadata srv c path = (some v, c, 0) := by
  simp only [getMetadata, h]

theorem getMetadata_lookup_root (srv : Server) (c : Cache) (path : String) :
    ((getMetadata srv c path).2.1).lookup "/" = c.lookup "/" := by
  simp only [getMetadata]
  cases h1 : cacheGet c (normKey path) with
  | some m => rfl
  | none =>
    cases h2 : cacheGet c "/" with
    | none => rfl
    | some root =>
      exact walk_lookup_root srv (splitSegs (normKey path)) root "/" c 0 (by decide)

theorem index_cache_eq (srv : Server) (c : Cache) (path : String) :
    (index srv c path).2 = (getMetadata srv c path).2 := by
  simp only [index]
  rcases h : getMetadata srv c path with ⟨md, c2, n⟩
  cases md <;> rfl

theorem listLoop_eq : ∀ (pages : List (List RemoteObject)) (acc : List RemoteObject) (n : Nat),
    listLoop pages acc n = (acc ++ pages.flatten, n + max 1 pages.length)
  | [], acc, n => by simp [listLoop]
  | [p], acc, n => by simp [listLoop]
  | p :: q :: rest, acc, n => by
    rw [listLoop, listLoop_eq (q :: rest) (acc ++ p) (n + 1)]
    refine Prod.ext ?_ ?_
    · simp [List.flatten_cons, List.append_assoc]
    · simp only [List.length_cons]
      rw [Nat.max_eq_right (by omega), Nat.max_eq_right (by omega)]
      omega

theorem listFiles_eq (pages : List (List RemoteObject)) :
    listFiles pages = (pages.flatten, max 1 pages.length) := by
  rw [listFiles, listLoop_eq]
  simp

theorem chunk_join_aux (P : Nat) : ∀ (k : Nat) (l : List RemoteObject), l.length ≤ k →
    (chunk P l).flatten = l
  | 0, [], _ => by rw [chunk]; rfl
  | 0, _ :: _, h => absurd h (by simp)
  | k + 1, [], _ => by rw [chunk]; rfl
  | k + 1, x :: xs, h => by
    rw [chunk]
    simp only [List.flatten_cons]
    rw [chunk_join_aux P k (xs.drop (P - 1)) (by
      simp only [List.length_drop]
      simp only [List.length_cons] at h
      omega)]
    simp [List.take_append_drop]

theorem chunk_join (P : Nat) (l : List RemoteObject) : (chunk P l).flatten = l :=
  chunk_join_aux P l.length l le_rfl

theorem chunk_length_aux (P : Nat) (hP : 0 < P) :
    ∀ (k : Nat) (l : List RemoteObject), l.length ≤ k →
      (chunk P l).length = (l.length + P - 1) / P
  | 0, [], _ => by
    rw [chunk]
    simp only [List.length_nil, Nat.zero_add]
    rw [Nat.div_eq_of_lt (by omega)]
  | 0, _ :: _, h => absurd h (by simp)
  | k + 1, [], _ => by
    rw [chunk]
    simp only [List.length_nil, Nat.zero_add]
    rw [Nat.div_eq_of_lt (by omega)]
  | k + 1, x :: xs, h => by
    rw [chunk]
    simp only [List.length_cons]
    rw [chunk_length_aux P hP k (xs.drop (P - 1)) (by
      simp only [List.length_drop]
      simp only [List.length_cons] at h
      omega)]
    simp only [List.length_drop]
    rcases le_or_lt (P - 1) xs.length with hle | hlt
    · have h1 : xs.length - (P - 1) + P - 1 = xs.length := by omega
      have h2 : xs.length + 1 + P - 1 = xs.length + P := by omega
      rw [h1, h2, Nat.add_div_right _ hP]
    · have h1 : xs.length - (P - 1) + P - 1 = P - 1 := by omega
      have h2 : xs.length + 1 + P - 1 = xs.length + P := by omega
      rw [h1, h2, Nat.add_div_right _ hP, Nat.div_eq_of_lt (by omega),
        Nat.div_eq_of_lt (by omega)]

theorem chunk_length (P : Nat) (hP : 0 < P) (l : List RemoteObject) :
    (chunk P l).length = (l.length + P - 1) / P :=
  chunk_length_aux P hP l.length l le_rfl

theorem request_append {α : Type} : ∀ (errs rest : List (ApiResp α)),
    (∀ r ∈ errs, isRateLimited r) → request (errs ++ rest) = request rest
  | [], _, _ => rfl
  | ApiResp.ok v :: errs, rest, h =>
    absurd (h _ (List.mem_cons_self _ _)) (fun f => f)
  | ApiResp.err st msg :: errs, rest, h => by
    have hm : strStartsWith msg rateLimitMarker = true := h _ (List.mem_cons_self _ _)
    rw [List.cons_append]
    simp only [request, hm, if_true]
    exact request_append errs rest (fun r hr => h r (List.mem_cons_of_mem _ hr))

/-- Claim C1 (amended): when the query for a cumulative sub-path returns an
empty result, the walk stores an entry for that sub-path whose value is the
undefined marker — the key is then present on the cache object, unlike a
plain miss — and stops immediately: the remaining deeper segments are never
queried, so the whole subtree below the not-found sub-path costs exactly the
one network call of that segment, in this resolution and in any later one.
However, because the cache-hit test uses truthiness, the stored marker is
indistinguishable from an absent key to later walks: a subsequent resolution
of the sub-path, or of any path descending through it, re-issues one query
for the not-found segment (see the counterexample) instead of the zero
network calls the claim states. -/
theorem walk_negative_entry (srv : Server) (m : RemoteObject) (name : String)
    (rest : List String) (fullPath : String) (c : Cache) (n : Nat)
    (hmiss : cacheGet c (fullPath ++ name ++ "/") = none)
    (hempty : srv m.id (queryName name) = []) :
    walk srv m (name :: rest) fullPath c n
      = (cacheSet c (fullPath ++ name ++ "/") none, n + 1)
    ∧ cacheHasKey (cacheSet c (fullPath ++ name ++ "/") none) (fullPath ++ name ++ "/") = true
    ∧ cacheGet (cacheSet c (fullPath ++ name ++ "/") none) (fullPath ++ name ++ "/") = none := by
  refine ⟨?_, by simp [cacheHasKey, cacheSet, List.lookup], cacheGet_cacheSet_self c _ none⟩
  simp only [walk, hmiss, hempty, List.head?_nil, cacheGet_cacheSet_self]

theorem walk_negative_entry_witness :
    walk emptySrv (rootObj "root") ["a", "b"] "/" (initCache "root") 0
      = (cacheSet (initCache "root") "/a/" none, 1)
    ∧ cacheHasKey (cacheSet (initCache "root") "/a/" none) "/a/" = true
    ∧ cacheGet (cacheSet (initCache "root") "/a/" none) "/a/" = none :=
  walk_negative_entry emptySrv (rootObj "root") "a" ["b"] "/" (initCache "root") 0
    (by decide) rfl

/-- Claim C1 fails as stated: after "a" has been resolved and cached as not
found (the entry for "/a/" is present and holds the undefined marker),
resolving "a/b" — a path that descends through the not-found sub-path —
performs one network call for segment "a", where the claim demands zero. -/
theorem negative_cache_requeries_cex :
    ((getMetadata emptySrv (initCache "root") "a").2.1).lookup "/a/" = some none
    ∧ (getMetadata emptySrv ((getMetadata emptySrv (initCache "root") "a").2.1) "a/b").2.2 = 1
    ∧ (getMetadata emptySrv ((getMetadata emptySrv (initCache "root") "a").2.1) "a/b").1 = none :=
  ⟨rfl, rfl, rfl⟩

/-- Claim C2 (amended): resolving the same path a second time returns the
identical outcome; when the first resolution found an object, the second is
a pure cache hit — identical RemoteObject, identical cache, zero network
calls.  When the first resolution was not found, the zero-network-calls part
of the claim fails (see the counterexample): the undefined marker stored for
the failing segment does not register as a cache hit, so that segment is
queried again on the second resolution. -/
theorem resolve_idempotent_when_found (srv : Server) (c : Cache) (path : String)
    (v : RemoteObject) (h : (getMetadata srv c path).1 = some v) :
    getMetadata srv (getMetadata srv c path).2.1 path
      = (some v, (getMetadata srv c path).2.1, 0) :=
  getMetadata_hit srv (getMetadata srv c path).2.1 path v
    ((getMetadata_fst srv c path).symm.trans h)

theorem resolve_idempotent_when_found_witness :
    getMetadata srvA ((getMetadata srvA (initCache "root") "a").2.1) "a"
      = (some objA, (getMetadata srvA (initCache "root") "a").2.1, 0) :=
  resolve_idempotent_when_found srvA (initCache "root") "a" objA (by decide)

/-- Claim C2 fails as stated: resolving "a" twice on a store where it does
not exist returns the same not-found outcome both times, but the second
resolution performs one network call, not zero — the not-found marker is not
recognized as a cache hit. -/
theorem resolve_not_found_requeries_cex :
    (getMetadata emptySrv ((getMetadata emptySrv (initCache "root") "a").2.1) "a").1 = none
    ∧ (getMetadata emptySrv ((getMetadata emptySrv (initCache "root") "a").2.1) "a").2.2 = 1 :=
  ⟨rfl, rfl⟩

/-- Claim C3: `request` retries unconditionally while the decoded response
carries an error message beginning with the rate-limit marker — any run of
rate-limited answers is transparent, with no retry limit — so a query that
is rate-limited first and succeeds later yields the successful result with
no visible error; an error whose message does not begin with the marker is
raised as a failure carrying the HTTP status and the server's message. -/
theorem request_rate_limit_transparency (α : Type) (errs rest : List (ApiResp α))
    (st : Nat) (msg : String) (v : α) :
    ((∀ r ∈ errs, isRateLimited r) → request (errs ++ rest) = request rest)
    ∧ (strStartsWith msg rateLimitMarker = false →
        request (ApiResp.err st msg :: rest) = some (Except.error ⟨st, msg⟩))
    ∧ (strStartsWith msg rateLimitMarker = true →
        request [ApiResp.err st msg, ApiResp.ok v] = some (Except.ok v)) := by
  refine ⟨request_append errs rest, ?_, ?_⟩
  · intro h
    simp [request, h]
  · intro h
    simp [request, h]

set_option maxRecDepth 4096 in
theorem request_rate_limit_transparency_witness :
    request ([ApiResp.err 403 rateLimitMarker] ++ [ApiResp.ok (1 : Nat)])
      = request [ApiResp.ok (1 : Nat)]
    ∧ request [ApiResp.err 500 "Internal error", ApiResp.ok (1 : Nat)]
        = some (Except.error ⟨500, "Internal error"⟩)
    ∧ request [ApiResp.err 403 rateLimitMarker, ApiResp.ok (2 : Nat)]
        = some (Except.ok 2) :=
  ⟨(request_rate_limit_transparency Nat [ApiResp.err 403 rateLimitMarker]
      [ApiResp.ok (1 : Nat)] 500 "Internal error" (2 : Nat)).1
      (by intro r hr; simp at hr; subst hr; exact (by decide : strStartsWith rateLimitMarker rateLimitMarker = true)),
   (request_rate_limit_transparency Nat [] [ApiResp.ok (1 : Nat)] 500 "Internal error"
      (2 : Nat)).2.1 (by decide),
   (request_rate_limit_transparency Nat [] [] 403 rateLimitMarker (2 : Nat)).2.2 (by decide)⟩

/-- Claim C4: `authorize` performs no token exchange while the held expiry
is set (nonzero) and in the future; otherwise it performs exactly one
exchange and, on success, sets the new expiry to now plus the declared
lifetime minus 300 seconds (stored in milliseconds).  Consequently, starting
without a valid token, a first call exchanges once and a second call made
while the newly cached expiry is still valid adds no exchange — one in
total — and a call made once that expiry is no longer valid performs exactly
one more exchange. -/
theorem authorize_token_lifecycle (c : Creds) (now : Int) (resp : TokenResp)
    (tok : String) (lifetime t2 t3 : Int) (r2 r3 : TokenResp) :
    (tokenValid c.expires_on now = true → authorize c now resp = (Except.ok (), c, 0))
    ∧ (tokenValid c.expires_on now = false →
        authorize c now (TokenResp.ok tok lifetime)
          = (Except.ok (),
             { expires_on := some (now + (lifetime - 300) * 1000),
               access_token := some tok }, 1))
    ∧ (tokenValid c.expires_on now = false →
        tokenValid (some (now + (lifetime - 300) * 1000)) t2 = true →
        (authorize c now (TokenResp.ok tok lifetime)).2.2
          + (authorize (authorize c now (TokenResp.ok tok lifetime)).2.1 t2 r2).2.2 = 1)
    ∧ (tokenValid c.expires_on now = false →
        tokenValid (some (now + (lifetime - 300) * 1000)) t3 = false →
        (authorize (authorize c now (TokenResp.ok tok lifetime)).2.1 t3 r3).2.2 = 1) := by
  refine ⟨?_, ?_, ?_, ?_⟩
  · intro h
    simp [authorize, h]
  · intro h
    simp [authorize, h]
  · intro h h2
    simp [authorize, h, h2]
  · intro h h3
    cases r3 <;> simp [authorize, h, h3]

theorem authorize_token_lifecycle_witness :
    authorize ⟨some 5000, some "s"⟩ 1000 (TokenResp.err 0 "")
      = (Except.ok (), ⟨some 5000, some "s"⟩, 0)
    ∧ authorize ⟨none, none⟩ 1000 (TokenResp.ok "t" 3600)
        = (Except.ok (), ⟨some (1000 + (3600 - 300) * 1000), some "t"⟩, 1)
    ∧ (authorize ⟨none, none⟩ 1000 (TokenResp.ok "t" 3600)).2.2
        + (authorize (authorize ⟨none, none⟩ 1000 (TokenResp.ok "t" 3600)).2.1 2000
            (TokenResp.err 0 "")).2.2 = 1
    ∧ (authorize (authorize ⟨none, none⟩ 1000 (TokenResp.ok "t" 3600)).2.1 4000000
        (TokenResp.err 0 "")).2.2 = 1 :=
  ⟨(authorize_token_lifecycle ⟨some 5000, some "s"⟩ 1000 (TokenResp.err 0 "") "t" 3600
      2000 4000000 (TokenResp.err 0 "") (TokenResp.err 0 "")).1 (by decide),
   (authorize_token_lifecycle ⟨none, none⟩ 1000 (TokenResp.err 0 "") "t" 3600
      2000 4000000 (TokenResp.err 0 "") (TokenResp.err 0 "")).2.1 (by decide),
   (authorize_token_lifecycle ⟨none, none⟩ 1000 (TokenResp.err 0 "") "t" 3600
      2000 4000000 (TokenResp.err 0 "") (TokenResp.err 0 "")).2.2.1 (by decide) (by decide),
   (authorize_token_lifecycle ⟨none, none⟩ 1000 (TokenResp.err 0 "") "t" 3600
      2000 4000000 (TokenResp.err 0 "") (TokenResp.err 0 "")).2.2.2 (by decide) (by decide)⟩

/-- Claim C9: when a token exchange is actually performed and the endpoint
returns an error payload, `authorize` throws a failure carrying the HTTP
status and the server's error description while leaving the held token and
expiry unchanged; and in general the credential state changes only when a
refresh succeeds. -/
theorem authorize_error_atomic (c : Creds) (now : Int) (st : Nat) (d : String) :
    (tokenValid c.expires_on now = false →
      authorize c now (TokenResp.err st d) = (Except.error ⟨st, d⟩, c, 1))
    ∧ (∀ resp : TokenResp, (authorize c now resp).2.1 ≠ c →
        ∃ tok lifetime, resp = TokenResp.ok tok lifetime
          ∧ (authorize c now resp).1 = Except.ok ()) := by
  constructor
  · intro h
    simp [authorize, h]
  · intro resp hne
    rcases Bool.eq_false_or_eq_true (tokenValid c.expires_on now) with hv | hv
    · exact absurd (by simp [authorize, hv]) hne
    · cases resp with
      | err st2 d2 => exact absurd (by simp [authorize, hv]) hne
      | ok tok lifetime =>
        exact ⟨tok, lifetime, rfl, by simp [authorize, hv]⟩

theorem authorize_error_atomic_witness :
    authorize ⟨none, none⟩ 0 (TokenResp.err 401 "invalid_grant")
      = (Except.error ⟨401, "invalid_grant"⟩, ⟨none, none⟩, 1)
    ∧ ∃ tok lifetime, TokenResp.ok "t" 3600 = TokenResp.ok tok lifetime
        ∧ (authorize ⟨none, none⟩ 0 (TokenResp.ok "t" 3600)).1 = Except.ok () :=
  ⟨(authorize_error_atomic ⟨none, none⟩ 0 401 "invalid_grant").1 (by decide),
   (authorize_error_atomic ⟨none, none⟩ 0 401 "invalid_grant").2
     (TokenResp.ok "t" 3600) (by decide)⟩

/-- Claim C5 (amended): listing drains every page into the accumulator,
starting with no continuation token and stopping exactly when a page carries
no continuation token; a directory whose N matching children — the children
passing the query filter the code sends, i.e. non-trashed and named
differently from the reserved filename — are split into pages of size P
yields exactly those N objects in the server's order.  The number of page
fetches is ceil(N/P) (written (N + P - 1) / P) for N ≥ 1; for N = 0 the
do/while loop still performs one fetch, where the claim's ceil(N/P) would be
0 (see the counterexample), so the count proved here is
max 1 (ceil(N/P)). -/
theorem listFiles_pagination (children : List RemoteObject) (P : Nat) (hP : 0 < P) :
    listFiles (chunk P (children.filter matchesQuery))
      = (children.filter matchesQuery,
         max 1 (((children.filter matchesQuery).length + P - 1) / P)) := by
  rw [listFiles_eq, chunk_join P (children.filter matchesQuery),
    chunk_length P hP (children.filter matchesQuery)]

theorem listFiles_pagination_witness :
    listFiles (chunk 2 (List.filter matchesQuery
        [objA, ⟨"idB", "b", "text/plain", true⟩, ⟨"idC", ".password", "text/plain", false⟩,
         ⟨"idD", "d", "text/plain", false⟩, ⟨"idE", "e", "text/plain", false⟩]))
      = (List.filter matchesQuery
          [objA, ⟨"idB", "b", "text/plain", true⟩, ⟨"idC", ".password", "text/plain", false⟩,
           ⟨"idD", "d", "text/plain", false⟩, ⟨"idE", "e", "text/plain", false⟩],
         max 1 (((List.filter matchesQuery
          [objA, ⟨"idB", "b", "text/plain", true⟩, ⟨"idC", ".password", "text/plain", false⟩,
           ⟨"idD", "d", "text/plain", false⟩, ⟨"idE", "e", "text/plain", false⟩]).length + 2 - 1) / 2)) :=
  listFiles_pagination
    [objA, ⟨"idB", "b", "text/plain", true⟩, ⟨"idC", ".password", "text/plain", false⟩,
     ⟨"idD", "d", "text/plain", false⟩, ⟨"idE", "e", "text/plain", false⟩] 2 (by decide)

/-- Claim C5 fails as stated at N = 0: a directory with no matching children
costs one page fetch — the do/while loop always issues at least one
request — while the claimed ceil(N/P) page-fetch count is 0. -/
theorem listFiles_empty_fetch_cex :
    (listFiles (chunk 1 (List.filter matchesQuery ([] : List RemoteObject)))).2 = 1
    ∧ ((List.filter matchesQuery ([] : List RemoteObject)).length + 1 - 1) / 1 = 0 := by
  constructor
  · simp only [List.filter_nil]
    rw [chunk]
    rfl
  · rfl

/-- Claim C6 (amended): the cache key of an input path is the path with
repeated separators collapsed and a single leading and trailing separator
ensured — "a//b/", "/a/b" and "a/b" all get the key "/a/b/", and any two
paths with the same key resolve identically — while the percent-escape
decoding and the quote escaping are applied to the segment name that is
interpolated into the query filter, not to the cache key (the counterexample
shows the key keeps its percent escapes, against the claim's wording). -/
theorem cache_key_normalization :
    (∀ (p1 p2 : String) (srv : Server) (c : Cache), normKey p1 = normKey p2 →
        getMetadata srv c p1 = getMetadata srv c p2)
    ∧ normKey "a//b/" = "/a/b/"
    ∧ normKey "/a/b" = "/a/b/"
    ∧ normKey "a/b" = "/a/b/"
    ∧ (∀ s : String, queryName s = String.mk (escapeQuotes (percentDecode s.data)))
    ∧ queryName (String.mk ['a', squote, 'b']) = String.mk ['a', bslash, squote, 'b'] := by
  refine ⟨?_, rfl, rfl, rfl, fun s => rfl, rfl⟩
  intro p1 p2 srv c h
  simp only [getMetadata, h]

theorem cache_key_normalization_witness :
    getMetadata emptySrv (initCache "root") "a//b/"
      = getMetadata emptySrv (initCache "root") "/a/b" :=
  cache_key_normalization.1 "a//b/" "/a/b" emptySrv (initCache "root") (by decide)

/-- Claim C6 fails in its percent-decoding part: for the input path "a%20b"
the cache key keeps the escape — it is "/a%20b/", not the decoded "/a b/"
the claim describes — while the decoded form "a b" is what is sent in the
query filter. -/
theorem cache_key_keeps_escapes_cex :
    normKey "a%20b" = "/a%20b/" ∧ normKey "a%20b" ≠ "/a b/" ∧ queryName "a%20b" = "a b" :=
  ⟨rfl, by decide, rfl⟩

/-- Claim C7: `index` fails with status 404 exactly when resolution ends in
the not-found outcome; otherwise it returns the resolved metadata unchanged
in a fresh wrapper — the cache is exactly what resolution left, so the
cached object itself is not modified — with `isFolder` true iff the MIME
type equals the folder sentinel, and with exactly one capability: listing by
the folder's id when `isFolder` is true, raw reading by the file's id when
it is false (the two alternatives of `Cap`, never both). -/
theorem index_classification (srv : Server) (c : Cache) (path : String) :
    (index srv c path).2 = (getMetadata srv c path).2
    ∧ ((getMetadata srv c path).1 = none →
        (index srv c path).1 = Except.error ⟨404, "Path not found"⟩)
    ∧ (∀ e, (index srv c path).1 = Except.error e →
        (getMetadata srv c path).1 = none ∧ e.status = 404)
    ∧ (∀ m, (getMetadata srv c path).1 = some m →
        (index srv c path).1 = Except.ok
          ⟨m, m.mimeType == FOLDER_TYPE,
            if m.mimeType == FOLDER_TYPE then Cap.list m.id else Cap.raw m.id⟩)
    ∧ (∀ i, (index srv c path).1 = Except.ok i →
        (i.isFolder = true ↔ i.cap = Cap.list i.obj.id)
        ∧ (i.isFolder = false ↔ i.cap = Cap.raw i.obj.id)) := by
  rcases hm : getMetadata srv c path with ⟨md, c2, n⟩
  cases md with
  | none =>
    refine ⟨?_, fun _ => ?_, fun e he => ?_, fun m hmd => ?_, fun i hi => ?_⟩
    · simp [index, hm]
    · simp [index, hm]
    · simp [index, hm] at he
      simp [← he]
    · simp at hmd
    · simp [index, hm] at hi
  | some m =>
    refine ⟨?_, fun hmd => ?_, fun e he => ?_, fun m2 hmd => ?_, fun i hi => ?_⟩
    · simp [index, hm]
    · simp at hmd
    · simp [index, hm] at he
    · simp at hmd
      subst hmd
      simp [index, hm]
    · simp only [index, hm] at hi
      have hi2 : i = ⟨m, m.mimeType == FOLDER_TYPE,
          if m.mimeType == FOLDER_TYPE then Cap.list m.id else Cap.raw m.id⟩ := by
        cases hi2 : (m.mimeType == FOLDER_TYPE) <;> simp [hi2] at hi <;> simp [← hi, hi2]
      subst hi2
      cases hb : (m.mimeType == FOLDER_TYPE) <;> simp [hb]

theorem index_classification_witness :
    (index emptySrv (initCache "root") "a").1 = Except.error ⟨404, "Path not found"⟩
    ∧ ((getMetadata emptySrv (initCache "root") "a").1 = none
        ∧ (ErrObj.mk 404 "Path not found").status = 404)
    ∧ (index srvA (initCache "root") "").1 = Except.ok
        ⟨rootObj "root", (rootObj "root").mimeType == FOLDER_TYPE,
          if (rootObj "root").mimeType == FOLDER_TYPE then Cap.list (rootObj "root").id
          else Cap.raw (rootObj "root").id⟩
    ∧ (((⟨objA, false, Cap.raw "idA"⟩ : Indexed).isFolder = true
          ↔ (⟨objA, false, Cap.raw "idA"⟩ : Indexed).cap
              = Cap.list (⟨objA, false, Cap.raw "idA"⟩ : Indexed).obj.id)
        ∧ ((⟨objA, false, Cap.raw "idA"⟩ : Indexed).isFolder = false
          ↔ (⟨objA, false, Cap.raw "idA"⟩ : Indexed).cap
              = Cap.raw (⟨objA, false, Cap.raw "idA"⟩ : Indexed).obj.id)) :=
  ⟨(index_classification emptySrv (initCache "root") "a").2.1 rfl,
   (index_classification emptySrv (initCache "root") "a").2.2.1 ⟨404, "Path not found"⟩ rfl,
   (index_classification srvA (initCache "root") "").2.2.2.1 (rootObj "root") rfl,
   (index_classification srvA (initCache "root") "a").2.2.2.2 ⟨objA, false, Cap.raw "idA"⟩ rfl⟩

/-- Claim C8: the constructor seeds the cache with the root path mapped to
the sentinel folder object; neither a resolution, nor an `index` call, nor a
listing ever changes the entry stored at "/"; and resolving the empty path
or "/" on the freshly seeded cache returns the seeded root object with zero
network calls. -/
theorem root_invariant (rid : String) (srv : Server) (c : Cache) (path : String)
    (pages : List (List RemoteObject)) :
    cacheGet (initCache rid) "/" = some (rootObj rid)
    ∧ (rootObj rid).mimeType = FOLDER_TYPE
    ∧ ((getMetadata srv c path).2.1).lookup "/" = c.lookup "/"
    ∧ ((index srv c path).2.1).lookup "/" = c.lookup "/"
    ∧ ((listFilesSt pages c).2).lookup "/" = c.lookup "/"
    ∧ getMetadata srv (initCache rid) "" = (some (rootObj rid), initCache rid, 0)
    ∧ getMetadata srv (initCache rid) "/" = (some (rootObj rid), initCache rid, 0) := by
  refine ⟨rfl, rfl, getMetadata_lookup_root srv c path, ?_, rfl, ?_, ?_⟩
  · rw [show (index srv c path).2.1 = (getMetadata srv c path).2.1 from
      congrArg Prod.fst (index_cache_eq srv c path)]
    exact getMetadata_lookup_root srv c path
  · exact getMetadata_hit srv (initCache rid) "" (rootObj rid) rfl
  · exact getMetadata_hit srv (initCache rid) "/" (rootObj rid) rfl

/-- Claim C10: the listing method never reads or writes the path cache — in
the state-threaded form the cache comes back unchanged — so after listing
the root folder's children, resolving the child path "a" still performs its
own metadata query (one network call) before returning the child. -/
theorem listing_no_cache_writes (pages : List (List RemoteObject)) (c : Cache) :
    (listFilesSt pages c).2 = c
    ∧ (getMetadata srvA ((listFilesSt [[objA]] (initCache "root")).2) "a").2.2 = 1
    ∧ (getMetadata srvA ((listFilesSt [[objA]] (initCache "root")).2) "a").1 = some objA :=
  ⟨rfl, rfl, rfl⟩
